import Mathlib

/-!
Verification development for the narrative-progression engine
(`mybot/narrative/narrative_service.py`).

The embedding translates `NarrativeService` operations into pure Lean
functions over an explicit database value.  The session (SQLAlchemy) is
modelled as a `DB` record holding the single user row, the single
`UserNarrativeState` row, and the `UserDecision` log of the user under
consideration; auxiliary collaborator calls (commit, checkpoint save,
metrics, points grants, achievement grants, lore unlocks) are recorded
as an ordered event trace.  A `none` operation result marks an
unhandled Python exception escaping the operation.

`story_manager.py`, `models.py` and `constants.py` are not part of the
sources; the definitions translated from them are modelled from the
spec and carry a doc comment saying so.
-/

/-- Flag values stored in `story_flags` (the source uses arbitrary JSON
values; booleans and integers are the values the code actually puts
there). -/
inductive FlagVal where
  | b (v : Bool)
  | n (v : Int)
deriving DecidableEq, Repr

/-- `ChoiceSchema.requirements` / `FragmentSchema.requirements`.
Modelled from the spec: `schemas.py` and the requirement vocabulary of
`story_manager.check_requirements` are missing from the sources; §3 of
the spec lists minimum level, minimum points, required items, required
achievements and required story-flag values. -/
structure Requirements where
  min_level : Option Nat := none
  min_points : Option Int := none
  required_items : List String := []
  required_achievements : List String := []
  required_flags : List (String × FlagVal) := []
deriving DecidableEq, Repr

/-- `ChoiceSchema.effects` as consumed by `_apply_choice_effects`
(optional keys `relationships`, `story_flags`, `items`, `points`). -/
structure Effects where
  relationships : Option (List (String × Int)) := none
  story_flags : Option (List (String × FlagVal)) := none
  items : Option (List String) := none
  points : Option Int := none
deriving DecidableEq, Repr

/-- `FragmentSchema.rewards`.  Modelled from the spec (§9): a record of
independently optional fields, mirroring the duck-typed `hasattr`
probes of `_process_fragment_rewards`. -/
structure Rewards where
  points : Option Int := none
  achievements : Option (List String) := none
  lore_pieces : Option (List String) := none
  unlock_fragments : Option (List String) := none
deriving DecidableEq, Repr

/-- `ChoiceSchema` (`schemas.py` is missing from the sources; fields are
the ones `narrative_service.py` reads: `id`, `text`, `next_fragment`,
`requirements`, `effects`). -/
structure ChoiceSchema where
  id : String
  text : String := ""
  next_fragment : String
  requirements : Option Requirements := none
  effects : Option Effects := none
deriving DecidableEq, Repr

/-- `FragmentSchema` (fields read by `narrative_service.py`: `id`,
`chapter`, `type`, `choices`, `next_fragment`, `requirements`,
`rewards`). -/
structure FragmentSchema where
  id : String
  chapter : Nat := 1
  type : String := "narrative"
  choices : List ChoiceSchema := []
  next_fragment : Option String := none
  requirements : Option Requirements := none
  rewards : Option Rewards := none
deriving DecidableEq, Repr

/-- A story of the catalog.  Modelled from the spec (§3, §4.1):
identifier, title, `requires_vip` flag, designated starting fragment,
set of fragments (`story_manager.py` is missing from the sources). -/
structure Story where
  id : String
  title : String := ""
  requires_vip : Bool := false
  start_fragment : String
  fragments : List FragmentSchema
deriving DecidableEq, Repr

/-- The immutable story catalog held by `StoryManager`. -/
abbrev Catalog := List Story

/-- `database.models.User` restricted to the fields the narrative
service reads (`role`, `level`, `points`); `models.py` is missing from
the sources. -/
structure UserRow where
  role : String := "free"
  level : Nat := 1
  points : Int := 0
deriving DecidableEq, Repr

/-- `narrative.models.UserNarrativeState` restricted to the fields the
service reads and writes.  `models.py` is missing from the sources;
field defaults are modelled from the spec (§3). -/
structure UserNarrativeState where
  user_id : Nat
  active_story : Option String := none
  current_fragment_id : Option String := none
  current_chapter : Nat := 1
  fragments_visited : List String := []
  story_flags : List (String × FlagVal) := []
  relationship_scores : List (String × Int) := []
  total_decisions_made : Nat := 0
  story_completion_percent : Nat := 0
  vip_story_unlocked : Bool := false
  last_interaction_at : Nat := 0
deriving DecidableEq, Repr

/-- `narrative.models.UserDecision` restricted to the fields the
service writes (append-only log row). -/
structure UserDecision where
  user_id : Nat
  fragment_id : Option String
  choice_id : String
  choice_text : String
  chapter : Nat
  points_gained : Int := 0
  items_gained : List String := []
deriving DecidableEq, Repr

/-- The persistent store visible to one user's operations: the `User`
row, the `UserNarrativeState` row and the `UserDecision` log, plus the
user's achievement ids (read by `_get_user_data_for_requirements`). -/
structure DB where
  user : Option UserRow := none
  state : Option UserNarrativeState := none
  decisions : List UserDecision := []
  user_achievements : List String := []
deriving DecidableEq, Repr

/-- One observable side effect of an operation, in program order. -/
inductive Event where
  | commit
  | checkpointSave
  | fragmentVisit (fid : String)
  | choiceMetric (fid : Option String) (cid : String)
  | pointsGrant (amount : Int)
  | achievementGrant (aid : String)
  | loreUnlock (code : String)
deriving DecidableEq, Repr

/-- Result of one engine operation: the returned
`(success, message, fragment)` triple (`none` when an unhandled
exception escapes), the database after the operation, and the ordered
event trace. -/
structure StepOut where
  result : Option (Bool × String × Option FragmentSchema)
  db : DB
  events : List Event
deriving DecidableEq, Repr

/-- Boolean list membership for fragment ids (Python `in`). -/
def memb (a : String) : List String → Bool
  | [] => false
  | b :: r => (a == b) || memb a r

/-- Python `list.index`: position of the first occurrence. -/
def find_index (a : String) : List String → Option Nat
  | [] => none
  | b :: r => if b == a then some 0 else (find_index a r).map (· + 1)

/-- `StoryManager.get_story` — Modelled from the spec (§4.1): lookup by
story id, absence for unknown ids. -/
def get_story (cat : Catalog) (sid : String) : Option Story :=
  cat.find? (fun s => s.id == sid)

/-- `StoryManager.get_fragment` — Modelled from the spec (§4.1): lookup
by story and fragment id, tolerating unknown/None ids by absence. -/
def get_fragment (cat : Catalog) (sid : Option String) (fid : Option String) :
    Option FragmentSchema :=
  match sid, fid with
  | some s, some f =>
      match get_story cat s with
      | some story => story.fragments.find? (fun fr => fr.id == f)
      | none => none
  | _, _ => none

/-- `StoryManager.get_starting_fragment` — Modelled from the spec
(§4.1): the designated entry fragment, fixed per story. -/
def get_starting_fragment (cat : Catalog) (sid : String) : Option FragmentSchema :=
  match get_story cat sid with
  | some story => get_fragment cat (some sid) (some story.start_fragment)
  | none => none

/-- `StoryManager.validate_choice` — Modelled from the spec (§4.1): the
choice must belong to the fragment. -/
def validate_choice (cat : Catalog) (sid : Option String) (fid : Option String)
    (cid : String) : Option ChoiceSchema :=
  match get_fragment cat sid fid with
  | some fr => fr.choices.find? (fun c => c.id == cid)
  | none => none

/-- Duplicate-removing helper for completion counting (keeps the first
occurrence). -/
def dedupl : List String → List String
  | [] => []
  | a :: r => if memb a r then dedupl r else a :: dedupl r

/-- `StoryManager.calculate_completion_percent` — Modelled from the
spec (§4.1): distinct visited fragments of the story over the story
size, times 100, saturating at 100, 0 for an empty story. -/
def calculate_completion_percent (cat : Catalog) (sid : Option String)
    (visited : List String) : Nat :=
  match sid with
  | none => 0
  | some s =>
      match get_story cat s with
      | none => 0
      | some story =>
          if story.fragments.length = 0 then 0
          else
            min 100
              ((dedupl (visited.filter
                  (fun v => story.fragments.any (fun fr => fr.id == v)))).length
                * 100 / story.fragments.length)

/-- `NARRATIVE_POINTS["fragment_read"]` — Modelled from the spec
(`constants.py` is missing): a fixed "fragment read" reward amount. -/
def fragment_read_points : Int := 5

/-- `NARRATIVE_POINTS["decision_made"]` — Modelled from the spec
(`constants.py` is missing): a fixed "decision made" reward amount. -/
def decision_made_points : Int := 10

/-- Assoc-list read with default 0 (`dict.get(k, 0)`). -/
def score_get (l : List (String × Int)) (k : String) : Int :=
  match l.find? (fun kv => kv.1 == k) with
  | some kv => kv.2
  | none => 0

/-- Assoc-list write (`dict[k] = v`): overwrite in place or append. -/
def score_set : List (String × Int) → String → Int → List (String × Int)
  | [], k, v => [(k, v)]
  | (k0, v0) :: rest, k, v =>
      if k0 == k then (k, v) :: rest else (k0, v0) :: score_set rest k v

/-- Assoc-list write for story flags. -/
def flag_set : List (String × FlagVal) → String → FlagVal → List (String × FlagVal)
  | [], k, v => [(k, v)]
  | (k0, v0) :: rest, k, v =>
      if k0 == k then (k, v) :: rest else (k0, v0) :: flag_set rest k v

/-- Assoc-list read for story flags. -/
def flag_get (l : List (String × FlagVal)) (k : String) : Option FlagVal :=
  match l.find? (fun kv => kv.1 == k) with
  | some kv => some kv.2
  | none => none

/-- Relationship deltas of `_apply_choice_effects`: each delta adds to
the existing score, a missing character counting as 0. -/
def apply_relationships (scores : List (String × Int))
    (deltas : List (String × Int)) : List (String × Int) :=
  deltas.foldl (fun acc kv => score_set acc kv.1 (score_get acc kv.1 + kv.2)) scores

/-- `dict.update` shallow merge of story flags. -/
def merge_flags (flags : List (String × FlagVal))
    (upd : List (String × FlagVal)) : List (String × FlagVal) :=
  upd.foldl (fun acc kv => flag_set acc kv.1 kv.2) flags

/-- User-fact snapshot built by `_get_user_data_for_requirements`
(lines 431–456): level/points default to 1/0 without a `User` row,
items are always empty (mochila integration pending), achievements come
from the store, flags from the narrative state. -/
structure UserData where
  level : Nat
  points : Int
  items : List String
  achievements : List String
  story_flags : List (String × FlagVal)
deriving DecidableEq, Repr

/-- `_get_user_data_for_requirements` translated from the source. -/
def user_data_for_requirements (db : DB) : UserData :=
  { level := match db.user with | some u => u.level | none => 1
    points := match db.user with | some u => u.points | none => 0
    items := []
    achievements := db.user_achievements
    story_flags := match db.state with | some s => s.story_flags | none => [] }

/-- `StoryManager.check_requirements` — Modelled from the spec (§4.2):
each requirement kind is evaluated against the user facts in
declaration order, unknown/empty requirements trivially satisfy, and
the missing descriptions are human-readable reasons. -/
def check_requirements (reqs : Requirements) (ud : UserData) :
    Bool × List String :=
  let m1 := match reqs.min_level with
    | some n => if ud.level < n then ["Nivel minimo " ++ toString n] else []
    | none => []
  let m2 := match reqs.min_points with
    | some p => if ud.points < p then ["Puntos minimos " ++ toString p] else []
    | none => []
  let m3 := (reqs.required_items.filter (fun i => ! memb i ud.items)).map
      (fun i => "Objeto " ++ i)
  let m4 := (reqs.required_achievements.filter
      (fun a => ! memb a ud.achievements)).map (fun a => "Logro " ++ a)
  let m5 := (reqs.required_flags.filter
      (fun kv => ! (flag_get ud.story_flags kv.1 == some kv.2))).map
      (fun kv => "Flag " ++ kv.1)
  let missing := m1 ++ m2 ++ m3 ++ m4 ++ m5
  (missing.isEmpty, missing)

/-- `choice.requirements or {}` / `next_fragment.requirements or {}`. -/
def req_or_empty (r : Option Requirements) : Requirements :=
  match r with
  | some q => q
  | none => {}

/-- The requirement-failure message built at lines 147–148 / 236–237. -/
def req_fail_msg (missing : List String) : String :=
  "No cumples los requisitos:\n" ++
    String.intercalate "\n" (missing.map (fun r => "• " ++ r))

/-- A gating failure: structured `(False, msg, None)` result, store and
trace untouched. -/
def failStep (msg : String) (db : DB) : StepOut :=
  ⟨some (false, msg, none), db, []⟩

/-- The state row built by `initialize_user_narrative` (lines 31–50);
defaults of the unmentioned columns are modelled from the spec (§3). -/
def fresh_state (uid : Nat) (now : Nat) : UserNarrativeState :=
  { user_id := uid
    current_fragment_id := none
    fragments_visited := []
    story_flags := [("first_time", FlagVal.b true),
                    ("lucien_relationship", FlagVal.n 0),
                    ("diana_relationship", FlagVal.n 0),
                    ("secrets_discovered", FlagVal.n 0)]
    relationship_scores := [("lucien", 0), ("diana", 0)]
    last_interaction_at := now }

/-- `initialize_user_narrative` (lines 31–50): adds a fresh state row
and commits it. -/
def init_user_narrative (uid : Nat) (now : Nat) (db : DB) :
    UserNarrativeState × DB × List Event :=
  (fresh_state uid now, { db with state := some (fresh_state uid now) },
   [Event.commit])

/-- The state update of `start_story` (lines 80–88): set the active
story, move the cursor to the starting fragment, reset the visited
list to a singleton, reset completion, unlock the vip story flag. -/
def started_state (story_id : String) (frag : FragmentSchema)
    (s : UserNarrativeState) : UserNarrativeState :=
  { s with
    active_story := some story_id
    current_fragment_id := some frag.id
    current_chapter := frag.chapter
    fragments_visited := [frag.id]
    story_completion_percent := 0
    vip_story_unlocked := if story_id == "vip" then true else s.vip_story_unlocked }

/-- Tail of `start_story` after the VIP gate (lines 74–98): resolve the
starting fragment, update and commit the state, then record the visit
metric and grant the fixed fragment-read points. -/
def start_story_go (cat : Catalog) (story_id : String) (story : Story)
    (state : UserNarrativeState) (db1 : DB) (ev1 : List Event) : StepOut :=
  match get_starting_fragment cat story_id with
  | none => ⟨some (false, "Error al cargar la historia", none), db1, ev1⟩
  | some frag =>
      let st2 := started_state story_id frag state
      ⟨some (true, "Historia \x27" ++ story.title ++ "\x27 iniciada", some frag),
       { db1 with state := some st2 },
       ev1 ++ [Event.commit, Event.fragmentVisit frag.id,
               Event.pointsGrant fragment_read_points]⟩

/-- The state row lines 62–65 operate on: the existing one, or the one
freshly created by `initialize_user_narrative`. -/
def lazy_state (uid now : Nat) (db : DB) : UserNarrativeState :=
  match db.state with
  | some s => s
  | none => fresh_state uid now

/-- The store after the lazy state creation of lines 62–65. -/
def lazy_db (uid now : Nat) (db : DB) : DB :=
  match db.state with
  | some _ => db
  | none => { db with state := some (fresh_state uid now) }

/-- The events of the lazy state creation (the commit inside
`initialize_user_narrative`). -/
def lazy_events (db : DB) : List Event :=
  match db.state with
  | some _ => []
  | none => [Event.commit]

/-- `start_story` (lines 52–98).  The lazy state creation commits an
initialized empty row before the VIP gate runs; a missing `User` row
combined with a VIP story makes `user.role` raise (`none` result). -/
def start_story (cat : Catalog) (uid : Nat) (story_id : String) (now : Nat)
    (db : DB) : StepOut :=
  match get_story cat story_id with
  | none => failStep "Historia no encontrada" db
  | some story =>
      if story.requires_vip then
        match db.user with
        | none => ⟨none, lazy_db uid now db, lazy_events db⟩
        | some u =>
            if u.role == "vip" then
              start_story_go cat story_id story (lazy_state uid now db)
                (lazy_db uid now db) (lazy_events db)
            else ⟨some (false, "Esta historia requiere suscripción VIP", none),
                  lazy_db uid now db, lazy_events db⟩
      else
        start_story_go cat story_id story (lazy_state uid now db)
          (lazy_db uid now db) (lazy_events db)

/-- `get_current_fragment` (lines 100–106). -/
def get_current_fragment (cat : Catalog) (db : DB) : Option FragmentSchema :=
  match db.state with
  | none => none
  | some s =>
      match s.current_fragment_id with
      | none => none
      | some _ => get_fragment cat s.active_story s.current_fragment_id

/-- `_apply_choice_effects` (lines 458–486): relationship deltas, flag
merge, items and points recorded on the decision row, points forwarded
to the points collaborator immediately. -/
def apply_choice_effects (eff : Effects) (state : UserNarrativeState)
    (d : UserDecision) : UserNarrativeState × UserDecision × List Event :=
  let s1 := match eff.relationships with
    | none => state
    | some rels =>
        { state with relationship_scores :=
            apply_relationships state.relationship_scores rels }
  let s2 := match eff.story_flags with
    | none => s1
    | some fl => { s1 with story_flags := merge_flags s1.story_flags fl }
  let d1 := match eff.items with
    | none => d
    | some its => { d with items_gained := its }
  match eff.points with
  | none => (s2, d1, [])
  | some p => (s2, { d1 with points_gained := p }, [Event.pointsGrant p])

/-- `_process_fragment_rewards` (lines 488–521; the source file is
truncated inside the `unlock_fragments` branch — that branch's
story-flag bookkeeping is omitted here and the remaining collaborator
calls are modelled from the spec §6): positive points are granted,
achievements and lore pieces forwarded to their collaborators. -/
def process_fragment_rewards (rw : Rewards) : List Event :=
  (match rw.points with
    | some p => if p > 0 then [Event.pointsGrant p] else []
    | none => []) ++
  (match rw.achievements with
    | some l => l.map Event.achievementGrant
    | none => []) ++
  (match rw.lore_pieces with
    | some l => l.map Event.loreUnlock
    | none => [])

/-- The state update of `make_choice` (lines 174–193): advance the
cursor, append the next fragment to the visited list if absent,
increment the decision counter, stamp the time, recompute completion. -/
def make_choice_next_state (cat : Catalog) (next : FragmentSchema) (now : Nat)
    (s1 : UserNarrativeState) : UserNarrativeState :=
  let visited := if memb next.id s1.fragments_visited
    then s1.fragments_visited else s1.fragments_visited ++ [next.id]
  { s1 with
    current_fragment_id := some next.id
    current_chapter := next.chapter
    fragments_visited := visited
    total_decisions_made := s1.total_decisions_made + 1
    last_interaction_at := now
    story_completion_percent :=
      calculate_completion_percent cat s1.active_story visited }

/-- The decision row built at lines 159–165 (before the state update,
so `fragment_id` is the fragment the choice was made from). -/
def mc_decision (uid : Nat) (choice_id : String) (state : UserNarrativeState)
    (current_fragment : FragmentSchema) (choice : ChoiceSchema) : UserDecision :=
  { user_id := uid
    fragment_id := state.current_fragment_id
    choice_id := choice_id
    choice_text := choice.text
    chapter := current_fragment.chapter }

/-- Lines 167–169: the choice effects applied to the state and the
decision row (skipped entirely when the choice has no effects). -/
def mc_apply (uid : Nat) (choice_id : String) (state : UserNarrativeState)
    (current_fragment : FragmentSchema) (choice : ChoiceSchema) :
    UserNarrativeState × UserDecision × List Event :=
  match choice.effects with
  | none => (state, mc_decision uid choice_id state current_fragment choice, [])
  | some eff =>
      apply_choice_effects eff state
        (mc_decision uid choice_id state current_fragment choice)

/-- Lines 186–187 / 247–248: the collaborator calls of the next
fragment's rewards, when it has any. -/
def reward_events (f : FragmentSchema) : List Event :=
  match f.rewards with
  | none => []
  | some rw => process_fragment_rewards rw

/-- Tail of `make_choice` after all gates passed (lines 158–204):
build the decision row, apply the choice effects, mutate the state,
checkpoint-save when the next fragment is a checkpoint, process the
next fragment's rewards, commit, then metrics and the fixed
decision-made points.  The choice metric is recorded against the
already-updated cursor (line 199 reads `state.current_fragment_id`
after line 174 overwrote it to the next fragment's id). -/
def make_choice_go (cat : Catalog) (uid : Nat) (choice_id : String) (now : Nat)
    (db : DB) (state : UserNarrativeState) (current_fragment : FragmentSchema)
    (choice : ChoiceSchema) (next_fragment : FragmentSchema) : StepOut :=
  ⟨some (true, "Decisión registrada", some next_fragment),
   { db with
     state := some (make_choice_next_state cat next_fragment now
       (mc_apply uid choice_id state current_fragment choice).1)
     decisions := db.decisions ++
       [(mc_apply uid choice_id state current_fragment choice).2.1] },
   (mc_apply uid choice_id state current_fragment choice).2.2 ++
     (if next_fragment.type == "checkpoint"
       then [Event.checkpointSave] else []) ++
     reward_events next_fragment ++
     [Event.commit, Event.fragmentVisit next_fragment.id,
      Event.choiceMetric (some next_fragment.id) choice_id,
      Event.pointsGrant decision_made_points]⟩

/-- `make_choice` (lines 108–204): the gate cascade, every failure
returning a structured result with the store untouched. -/
def make_choice (cat : Catalog) (uid : Nat) (choice_id : String) (now : Nat)
    (db : DB) : StepOut :=
  match db.state with
  | none => failStep "No tienes una historia activa" db
  | some state =>
      match get_fragment cat state.active_story state.current_fragment_id with
      | none => failStep "Error al cargar el fragmento actual" db
      | some current_fragment =>
          match validate_choice cat state.active_story
              state.current_fragment_id choice_id with
          | none => failStep "Opción no válida" db
          | some choice =>
              if (check_requirements (req_or_empty choice.requirements)
                  (user_data_for_requirements db)).1 then
                match get_fragment cat state.active_story
                    (some choice.next_fragment) with
                | none => failStep "Error al cargar el siguiente fragmento" db
                | some next_fragment =>
                    make_choice_go cat uid choice_id now db state
                      current_fragment choice next_fragment
              else
                failStep (req_fail_msg (check_requirements
                  (req_or_empty choice.requirements)
                  (user_data_for_requirements db)).2) db

/-- The state update of `navigate_next` (lines 239–254): advance the
cursor, append if absent, stamp the time, recompute completion — the
decision counter is untouched. -/
def navigate_next_state (cat : Catalog) (next : FragmentSchema) (now : Nat)
    (s : UserNarrativeState) : UserNarrativeState :=
  let visited := if memb next.id s.fragments_visited
    then s.fragments_visited else s.fragments_visited ++ [next.id]
  { s with
    current_fragment_id := some next.id
    current_chapter := next.chapter
    fragments_visited := visited
    last_interaction_at := now
    story_completion_percent :=
      calculate_completion_percent cat s.active_story visited }

/-- Tail of `navigate_next` after the gates (lines 239–262): update and
commit the state, then the visit metric and fixed fragment-read
points.  No decision row and no checkpoint save exist on this path. -/
def navigate_next_go (cat : Catalog) (now : Nat) (db : DB)
    (state : UserNarrativeState) (next_fragment : FragmentSchema) : StepOut :=
  ⟨some (true, "Continuando historia", some next_fragment),
   { db with state := some (navigate_next_state cat next_fragment now state) },
   reward_events next_fragment ++
     [Event.commit, Event.fragmentVisit next_fragment.id,
      Event.pointsGrant fragment_read_points]⟩

/-- `navigate_next` (lines 206–262): auto-advance along
`next_fragment`, gating on the target fragment's requirements. -/
def navigate_next (cat : Catalog) (uid : Nat) (now : Nat) (db : DB) : StepOut :=
  match db.state with
  | none => failStep "No tienes una historia activa" db
  | some state =>
      match get_fragment cat state.active_story state.current_fragment_id with
      | none => failStep "No hay siguiente fragmento" db
      | some current_fragment =>
          match current_fragment.next_fragment with
          | none => failStep "No hay siguiente fragmento" db
          | some nfid =>
              match get_fragment cat state.active_story (some nfid) with
              | none => failStep "Error al cargar el siguiente fragmento" db
              | some next_fragment =>
                  if (check_requirements
                      (req_or_empty next_fragment.requirements)
                      (user_data_for_requirements db)).1 then
                    navigate_next_go cat now db state next_fragment
                  else
                    failStep (req_fail_msg (check_requirements
                      (req_or_empty next_fragment.requirements)
                      (user_data_for_requirements db)).2) db

/-- `go_back` (lines 264–291): cursor-only back-navigation.  The
positional lookup mirrors Python `list.index`, whose `ValueError` on a
missing element is the `none` result; the visited list is never
modified. -/
def go_back (cat : Catalog) (uid : Nat) (now : Nat) (db : DB) : StepOut :=
  match db.state with
  | none => failStep "No puedes retroceder más" db
  | some state =>
      if state.fragments_visited.length ≤ 1 then
        failStep "No puedes retroceder más" db
      else
        match state.current_fragment_id with
        | none => ⟨none, db, []⟩
        | some cur =>
            match find_index cur state.fragments_visited with
            | none => ⟨none, db, []⟩
            | some idx =>
                if idx = 0 then failStep "Ya estás en el inicio" db
                else
                  match get_fragment cat state.active_story
                      (some (state.fragments_visited.getD (idx - 1) "")) with
                  | none => failStep "Error al cargar fragmento anterior" db
                  | some prev =>
                      ⟨some (true, "Has retrocedido", some prev),
                       { db with state := some { state with
                          current_fragment_id :=
                            some (state.fragments_visited.getD (idx - 1) "")
                          current_chapter := prev.chapter
                          last_interaction_at := now } },
                       [Event.commit]⟩

/-! ## Concrete fixtures used by witnesses and counterexamples -/

/-- Choice `c1` of fragment `f1`: leads to `f2`, grants 10 points. -/
def fxChoice : ChoiceSchema :=
  { id := "c1", text := "Ir", next_fragment := "f2",
    effects := some { points := some 10 } }

/-- Decision fragment `f1` of the free story. -/
def fxF1 : FragmentSchema :=
  { id := "f1", chapter := 1, type := "decision", choices := [fxChoice] }

/-- Ending fragment `f2` of the free story. -/
def fxF2 : FragmentSchema := { id := "f2", chapter := 1, type := "ending" }

/-- The free story: `f1` (decision, `c1` → `f2`) and `f2`. -/
def freeStory : Story :=
  { id := "free", title := "Free", start_fragment := "f1",
    fragments := [fxF1, fxF2] }

/-- Narrative fragment `n1` auto-advancing to checkpoint `n3`. -/
def fxN1 : FragmentSchema :=
  { id := "n1", type := "narrative", next_fragment := some "n3" }

/-- Checkpoint fragment `n3`. -/
def fxN3 : FragmentSchema := { id := "n3", type := "checkpoint" }

/-- A story traversed by `navigate_next` into a checkpoint. -/
def navStory : Story :=
  { id := "nav", title := "Nav", start_fragment := "n1",
    fragments := [fxN1, fxN3] }

/-- A VIP-gated story. -/
def vipStory : Story :=
  { id := "vipstory", title := "Vip", requires_vip := true,
    start_fragment := "f1", fragments := [fxF1, fxF2] }

/-- Decision fragment `k1` whose choice leads into a checkpoint. -/
def fxK1 : FragmentSchema :=
  { id := "k1", type := "decision",
    choices := [{ id := "c1", next_fragment := "k3" }] }

/-- Checkpoint fragment `k3`. -/
def fxK3 : FragmentSchema := { id := "k3", type := "checkpoint" }

/-- A story whose choice transition lands on a checkpoint. -/
def ckStory : Story :=
  { id := "ck", title := "Ck", start_fragment := "k1",
    fragments := [fxK1, fxK3] }

/-- Narrative fragment `r1` auto-advancing to a gated fragment. -/
def fxR1 : FragmentSchema := { id := "r1", next_fragment := some "r2" }

/-- Fragment `r2` requiring level 5 to enter. -/
def fxR2 : FragmentSchema :=
  { id := "r2", requirements := some { min_level := some 5 } }

/-- A story whose auto-advance target is requirement-gated. -/
def reqStory : Story :=
  { id := "req", title := "Req", start_fragment := "r1",
    fragments := [fxR1, fxR2] }

/-- The fixture catalog. -/
def fxCat : Catalog := [freeStory, navStory, vipStory, ckStory, reqStory]

/-- A non-VIP user row. -/
def fxUser : UserRow := { role := "free", level := 1, points := 0 }

/-- Store with a user row and no narrative state. -/
def fxDb0 : DB := { user := some fxUser }

/-- A returning user's state: seven decisions already made. -/
def fxStatePrior : UserNarrativeState :=
  { user_id := 1, active_story := some "free",
    current_fragment_id := some "f2", fragments_visited := ["f1", "f2"],
    total_decisions_made := 7 }

/-- Store of the returning user. -/
def fxDbPrior : DB := { user := some fxUser, state := some fxStatePrior }

/-! ## Further fixtures: narrative states in the middle of a story -/

/-- State sitting at decision fragment `f1` of the free story. -/
def fxStateF1 : UserNarrativeState :=
  { user_id := 1, active_story := some "free",
    current_fragment_id := some "f1", fragments_visited := ["f1"] }

/-- Store sitting at `f1`. -/
def fxDbF1 : DB := { user := some fxUser, state := some fxStateF1 }

/-- State sitting at `n1` of the nav story (next is the checkpoint). -/
def fxStateN1 : UserNarrativeState :=
  { user_id := 1, active_story := some "nav",
    current_fragment_id := some "n1", fragments_visited := ["n1"] }

/-- Store sitting at `n1`. -/
def fxDbN1 : DB := { user := some fxUser, state := some fxStateN1 }

/-- State sitting at `r1` of the gated story. -/
def fxStateR1 : UserNarrativeState :=
  { user_id := 1, active_story := some "req",
    current_fragment_id := some "r1", fragments_visited := ["r1"] }

/-- Store sitting at `r1`. -/
def fxDbR1 : DB := { user := some fxUser, state := some fxStateR1 }

/-- State sitting at `k1` of the checkpoint story. -/
def fxStateK1 : UserNarrativeState :=
  { user_id := 1, active_story := some "ck",
    current_fragment_id := some "k1", fragments_visited := ["k1"] }

/-- Store sitting at `k1`. -/
def fxDbK1 : DB := { user := some fxUser, state := some fxStateK1 }

/-- State sitting at `f2` with history `[f1, f2]` (back-navigable). -/
def fxStateBack : UserNarrativeState :=
  { user_id := 1, active_story := some "free",
    current_fragment_id := some "f2", fragments_visited := ["f1", "f2"] }

/-- Store sitting at `f2` with back-navigable history. -/
def fxDbBack : DB := { user := some fxUser, state := some fxStateBack }

/-- The state after going back from `f2` to `f1` at time 6: only the
cursor, chapter and timestamp move; the history is untouched. -/
def fxStateBackPrev : UserNarrativeState :=
  { fxStateBack with
    current_fragment_id := some "f1"
    current_chapter := 1
    last_interaction_at := 6 }

/-! ## Event classification -/

/-- Auxiliary collaborator calls named by the ordering claim: points
grants and the two metrics. -/
def is_aux : Event → Bool
  | Event.pointsGrant _ => true
  | Event.fragmentVisit _ => true
  | Event.choiceMetric _ _ => true
  | _ => false

/-- The two metrics collaborator calls. -/
def is_metric : Event → Bool
  | Event.fragmentVisit _ => true
  | Event.choiceMetric _ _ => true
  | _ => false

/-- `true` iff no auxiliary call occurs before the first commit. -/
def aux_after_commit : List Event → Bool
  | [] => true
  | Event.commit :: _ => true
  | e :: rest => !is_aux e && aux_after_commit rest

/-- `true` iff no metrics call occurs before the first commit. -/
def metrics_after_commit : List Event → Bool
  | [] => true
  | Event.commit :: _ => true
  | e :: rest => !is_metric e && metrics_after_commit rest

/-- Number of checkpoint saves in a trace. -/
def count_ck : List Event → Nat
  | [] => 0
  | Event.commit :: r => count_ck r
  | Event.checkpointSave :: r => count_ck r + 1
  | Event.fragmentVisit _ :: r => count_ck r
  | Event.choiceMetric _ _ :: r => count_ck r
  | Event.pointsGrant _ :: r => count_ck r
  | Event.achievementGrant _ :: r => count_ck r
  | Event.loreUnlock _ :: r => count_ck r

/-- The decision counter the user carries into `start_story` (0 when no
state row exists yet, since `initialize_user_narrative` creates one
with a zero counter). -/
def pre_total (db : DB) : Nat :=
  match db.state with
  | some s => s.total_decisions_made
  | none => 0

/-- The decision counter visible in a store, when a state row exists. -/
def db_total (db : DB) : Option Nat :=
  match db.state with
  | some s => some s.total_decisions_made
  | none => none

/-- The cursor-membership invariant: a non-null `current_fragment_id`
occurs in `fragments_visited`, and a null one only together with an
empty history. -/
def state_inv (s : UserNarrativeState) : Prop :=
  match s.current_fragment_id with
  | some c => c ∈ s.fragments_visited
  | none => s.fragments_visited = []

/-- The invariant over the store. -/
def db_inv (db : DB) : Prop := ∀ s, db.state = some s → state_inv s

/-- The no-duplicates invariant over the store. -/
def db_nodup (db : DB) : Prop :=
  ∀ s, db.state = some s → s.fragments_visited.Nodup

/-! ## Shape lemmas: one inversion lemma per operation -/

/-- The success branch of `start_story_go` in one equation. -/
theorem start_story_go_eq_of_frag (cat : Catalog) (sid : String) (story : Story)
    (st : UserNarrativeState) (db1 : DB) (ev1 : List Event)
    (frag : FragmentSchema) (h : get_starting_fragment cat sid = some frag) :
    start_story_go cat sid story st db1 ev1 =
      ⟨some (true, "Historia \x27" ++ story.title ++ "\x27 iniciada", some frag),
       { db1 with state := some (started_state sid frag st) },
       ev1 ++ [Event.commit, Event.fragmentVisit frag.id,
               Event.pointsGrant fragment_read_points]⟩ := by
  unfold start_story_go
  rw [h]

/-- Case analysis of `start_story`: story unknown, crash on a missing
user row at the VIP gate, VIP denial, or the shared success tail. -/
theorem start_story_shape (cat : Catalog) (uid : Nat) (sid : String)
    (now : Nat) (db : DB) :
    start_story cat uid sid now db = failStep "Historia no encontrada" db ∨
    (∃ story, get_story cat sid = some story ∧ story.requires_vip = true ∧
      db.user = none ∧
      start_story cat uid sid now db =
        ⟨none, lazy_db uid now db, lazy_events db⟩) ∨
    (∃ story u, get_story cat sid = some story ∧ story.requires_vip = true ∧
      db.user = some u ∧ (u.role == "vip") = false ∧
      start_story cat uid sid now db =
        ⟨some (false, "Esta historia requiere suscripción VIP", none),
         lazy_db uid now db, lazy_events db⟩) ∨
    (∃ story, get_story cat sid = some story ∧
      start_story cat uid sid now db =
        start_story_go cat sid story (lazy_state uid now db)
          (lazy_db uid now db) (lazy_events db)) := by
  unfold start_story
  cases hst : get_story cat sid with
  | none => exact Or.inl rfl
  | some story =>
      cases hvip : story.requires_vip with
      | false =>
          exact Or.inr (Or.inr (Or.inr ⟨story, rfl, by simp [hvip]⟩))
      | true =>
          cases hu : db.user with
          | none =>
              exact Or.inr (Or.inl ⟨story, rfl, hvip, rfl, by simp [hvip, hu]⟩)
          | some u =>
              cases hr : u.role == "vip" with
              | false =>
                  exact Or.inr (Or.inr (Or.inl
                    ⟨story, u, rfl, hvip, rfl, hr, by simp [hvip, hu, hr]⟩))
              | true =>
                  exact Or.inr (Or.inr (Or.inr
                    ⟨story, rfl, by simp [hvip, hu, hr]⟩))

/-- Case analysis of `make_choice`: a gating failure leaving the store
untouched, or the success tail with all gate facts recorded. -/
theorem make_choice_shape (cat : Catalog) (uid : Nat) (cid : String)
    (now : Nat) (db : DB) :
    (∃ m, make_choice cat uid cid now db = failStep m db) ∨
    (∃ state current choice next, db.state = some state ∧
      get_fragment cat state.active_story state.current_fragment_id =
        some current ∧
      validate_choice cat state.active_story state.current_fragment_id cid =
        some choice ∧
      (check_requirements (req_or_empty choice.requirements)
        (user_data_for_requirements db)).1 = true ∧
      get_fragment cat state.active_story (some choice.next_fragment) =
        some next ∧
      make_choice cat uid cid now db =
        make_choice_go cat uid cid now db state current choice next) := by
  unfold make_choice
  split
  · exact Or.inl ⟨_, rfl⟩
  rename_i state hs
  split
  · exact Or.inl ⟨_, rfl⟩
  rename_i current hcf
  split
  · exact Or.inl ⟨_, rfl⟩
  rename_i choice hvc
  split
  · rename_i hchk
    split
    · exact Or.inl ⟨_, rfl⟩
    rename_i next hnf
    exact Or.inr ⟨state, current, choice, next, hs, hcf, hvc, hchk, hnf, rfl⟩
  · exact Or.inl ⟨_, rfl⟩

/-- Case analysis of `navigate_next`: a gating failure leaving the
store untouched, or the success tail. -/
theorem navigate_next_shape (cat : Catalog) (uid : Nat) (now : Nat) (db : DB) :
    (∃ m, navigate_next cat uid now db = failStep m db) ∨
    (∃ state current nfid next, db.state = some state ∧
      get_fragment cat state.active_story state.current_fragment_id =
        some current ∧
      current.next_fragment = some nfid ∧
      get_fragment cat state.active_story (some nfid) = some next ∧
      (check_requirements (req_or_empty next.requirements)
        (user_data_for_requirements db)).1 = true ∧
      navigate_next cat uid now db = navigate_next_go cat now db state next) := by
  unfold navigate_next
  split
  · exact Or.inl ⟨_, rfl⟩
  rename_i state hs
  split
  · exact Or.inl ⟨_, rfl⟩
  rename_i current hcf
  split
  · exact Or.inl ⟨_, rfl⟩
  rename_i nfid hnx
  split
  · exact Or.inl ⟨_, rfl⟩
  rename_i next hnf
  split
  · rename_i hchk
    exact Or.inr ⟨state, current, nfid, next, hs, hcf, hnx, hnf, hchk, rfl⟩
  · exact Or.inl ⟨_, rfl⟩

/-! ## Small list lemmas -/

theorem memb_iff_mem (a : String) (l : List String) :
    memb a l = true ↔ a ∈ l := by
  induction l with
  | nil => simp [memb]
  | cons b r ih => simp [memb, ih, beq_iff_eq]

theorem memb_eq_false_iff (a : String) (l : List String) :
    memb a l = false ↔ a ∉ l := by
  rw [← memb_iff_mem]
  cases memb a l <;> simp

theorem find_index_lt_length (a : String) (l : List String) (i : Nat)
    (h : find_index a l = some i) : i < l.length := by
  induction l generalizing i with
  | nil => simp [find_index] at h
  | cons b r ih =>
      simp only [find_index] at h
      split at h
      · cases h; simp
      · cases hr : find_index a r with
        | none => rw [hr] at h; simp at h
        | some j =>
            rw [hr] at h
            simp at h
            subst h
            have := ih j hr
            simpa using Nat.succ_lt_succ this

theorem find_index_isSome_of_mem (a : String) (l : List String)
    (h : a ∈ l) : ∃ i, find_index a l = some i := by
  induction l with
  | nil => simp at h
  | cons b r ih =>
      by_cases hb : b = a
      · exact ⟨0, by simp [find_index, hb]⟩
      · have : a ∈ r := by
          rcases List.mem_cons.mp h with h1 | h1
          · exact absurd h1.symm hb
          · exact h1
        rcases ih this with ⟨j, hj⟩
        refine ⟨j + 1, ?_⟩
        simp [find_index, hj, beq_iff_eq, hb]

theorem getD_mem_of_lt (l : List String) (i : Nat) (d : String)
    (h : i < l.length) : l.getD i d ∈ l := by
  induction l generalizing i with
  | nil => simp at h
  | cons b r ih =>
      cases i with
      | zero => simp
      | succ j =>
          have : j < r.length := by simpa using Nat.lt_of_succ_lt_succ h
          simpa using Or.inr (ih j this)

theorem count_ck_append (l1 l2 : List Event) :
    count_ck (l1 ++ l2) = count_ck l1 + count_ck l2 := by
  induction l1 with
  | nil => simp [count_ck]
  | cons e r ih => cases e <;> simp [count_ck, ih] <;> omega

theorem nodup_concat_of_not_mem (l : List String) (a : String)
    (h1 : l.Nodup) (h2 : a ∉ l) : (l ++ [a]).Nodup := by
  induction l with
  | nil => simp
  | cons b r ih =>
      rcases List.nodup_cons.mp h1 with ⟨hb, hr⟩
      have ha : a ∉ r := fun hm => h2 (List.mem_cons_of_mem _ hm)
      have hba : b ≠ a := fun he => h2 (he ▸ List.mem_cons_self b r)
      refine List.nodup_cons.mpr ⟨?_, ih hr ha⟩
      intro hm
      rcases List.mem_append.mp hm with hm | hm
      · exact hb hm
      · simp at hm; exact hba hm

/-! ## Shape lemmas for the effect helpers and `go_back` -/

/-- The events of `_apply_choice_effects` are at most one points
grant; the state keeps its cursor, visited list, decision counter and
active story, and the decision row keeps its identifying fields. -/
theorem apply_choice_effects_shape (eff : Effects) (s : UserNarrativeState)
    (d : UserDecision) :
    ((apply_choice_effects eff s d).2.2 = [] ∨
      ∃ p, (apply_choice_effects eff s d).2.2 = [Event.pointsGrant p]) ∧
    (apply_choice_effects eff s d).1.current_fragment_id = s.current_fragment_id ∧
    (apply_choice_effects eff s d).1.fragments_visited = s.fragments_visited ∧
    (apply_choice_effects eff s d).1.total_decisions_made = s.total_decisions_made ∧
    (apply_choice_effects eff s d).1.active_story = s.active_story ∧
    (apply_choice_effects eff s d).2.1.fragment_id = d.fragment_id ∧
    (apply_choice_effects eff s d).2.1.choice_id = d.choice_id := by
  unfold apply_choice_effects
  rcases eff with ⟨rels, flags, items, points⟩
  cases rels <;> cases flags <;> cases items <;> cases points <;> simp

/-- Every reward event is a points grant, an achievement grant or a
lore unlock. -/
theorem process_fragment_rewards_shape (rw : Rewards) (e : Event)
    (h : e ∈ process_fragment_rewards rw) :
    (∃ p, e = Event.pointsGrant p) ∨ (∃ a, e = Event.achievementGrant a) ∨
      (∃ c, e = Event.loreUnlock c) := by
  unfold process_fragment_rewards at h
  rcases rw with ⟨points, achs, lore, unlocks⟩
  simp only at h
  rcases List.mem_append.mp h with h1 | h1
  · rcases List.mem_append.mp h1 with h2 | h2
    · cases points with
      | none => simp at h2
      | some p =>
          simp only at h2
          split at h2
          · simp at h2; exact Or.inl ⟨p, h2⟩
          · simp at h2
    · cases achs with
      | none => simp at h2
      | some l =>
          simp only at h2
          rcases List.mem_map.mp h2 with ⟨a, _, ha⟩
          exact Or.inr (Or.inl ⟨a, ha.symm⟩)
  · cases lore with
    | none => simp at h1
    | some l =>
        simp only at h1
        rcases List.mem_map.mp h1 with ⟨c, _, hc⟩
        exact Or.inr (Or.inr ⟨c, hc.symm⟩)

/-- Case analysis of `go_back`: a structured failure leaving the store
untouched, the `ValueError` crash, or the cursor-only success. -/
theorem go_back_shape (cat : Catalog) (uid : Nat) (now : Nat) (db : DB) :
    (∃ m, go_back cat uid now db = failStep m db) ∨
    go_back cat uid now db = ⟨none, db, []⟩ ∨
    (∃ state cur idx prev, db.state = some state ∧
      ¬ state.fragments_visited.length ≤ 1 ∧
      state.current_fragment_id = some cur ∧
      find_index cur state.fragments_visited = some idx ∧
      idx ≠ 0 ∧
      get_fragment cat state.active_story
        (some (state.fragments_visited.getD (idx - 1) "")) = some prev ∧
      go_back cat uid now db =
        ⟨some (true, "Has retrocedido", some prev),
         { db with state := some { state with
            current_fragment_id :=
              some (state.fragments_visited.getD (idx - 1) "")
            current_chapter := prev.chapter
            last_interaction_at := now } },
         [Event.commit]⟩) := by
  unfold go_back
  split
  · exact Or.inl ⟨_, rfl⟩
  rename_i state hs
  split
  · exact Or.inl ⟨_, rfl⟩
  rename_i hlen
  split
  · exact Or.inr (Or.inl rfl)
  rename_i cur hcur
  split
  · exact Or.inr (Or.inl rfl)
  rename_i idx hidx
  split
  · exact Or.inl ⟨_, rfl⟩
  rename_i hidx0
  split
  · exact Or.inl ⟨_, rfl⟩
  rename_i prev hprev
  exact Or.inr (Or.inr ⟨state, cur, idx, prev, hs, hlen, hcur, hidx, hidx0,
    hprev, rfl⟩)

/-! ## Equation lemmas for the success tails and the lazy creation -/

theorem make_choice_go_result (cat : Catalog) (uid : Nat) (cid : String)
    (now : Nat) (db : DB) (state : UserNarrativeState) (cf : FragmentSchema)
    (ch : ChoiceSchema) (nf : FragmentSchema) :
    (make_choice_go cat uid cid now db state cf ch nf).result =
      some (true, "Decisión registrada", some nf) := rfl

theorem navigate_next_go_result (cat : Catalog) (now : Nat) (db : DB)
    (state : UserNarrativeState) (nf : FragmentSchema) :
    (navigate_next_go cat now db state nf).result =
      some (true, "Continuando historia", some nf) := rfl

theorem lazy_db_decisions (uid now : Nat) (db : DB) :
    (lazy_db uid now db).decisions = db.decisions := by
  unfold lazy_db; cases db.state <;> rfl

theorem lazy_db_user (uid now : Nat) (db : DB) :
    (lazy_db uid now db).user = db.user := by
  unfold lazy_db; cases db.state <;> rfl

theorem lazy_db_of_some (uid now : Nat) (db : DB) (s : UserNarrativeState)
    (h : db.state = some s) : lazy_db uid now db = db := by
  unfold lazy_db; rw [h]

theorem lazy_db_of_none (uid now : Nat) (db : DB) (h : db.state = none) :
    lazy_db uid now db = { db with state := some (fresh_state uid now) } := by
  unfold lazy_db; rw [h]

theorem lazy_state_total (uid now : Nat) (db : DB) :
    (lazy_state uid now db).total_decisions_made = pre_total db := by
  unfold lazy_state pre_total; cases db.state <;> rfl

/-- The effect-application step keeps the state's cursor, visited list,
decision counter and active story, and the decision row's identifying
fields; its trace is at most one points grant. -/
theorem mc_apply_shape (uid : Nat) (cid : String) (state : UserNarrativeState)
    (cf : FragmentSchema) (ch : ChoiceSchema) :
    ((mc_apply uid cid state cf ch).2.2 = [] ∨
      ∃ p, (mc_apply uid cid state cf ch).2.2 = [Event.pointsGrant p]) ∧
    (mc_apply uid cid state cf ch).1.current_fragment_id =
      state.current_fragment_id ∧
    (mc_apply uid cid state cf ch).1.fragments_visited =
      state.fragments_visited ∧
    (mc_apply uid cid state cf ch).1.total_decisions_made =
      state.total_decisions_made ∧
    (mc_apply uid cid state cf ch).1.active_story = state.active_story ∧
    (mc_apply uid cid state cf ch).2.1.fragment_id =
      state.current_fragment_id ∧
    (mc_apply uid cid state cf ch).2.1.choice_id = cid := by
  unfold mc_apply
  cases heff : ch.effects with
  | none => exact ⟨Or.inl rfl, rfl, rfl, rfl, rfl, rfl, rfl⟩
  | some eff =>
      have h := apply_choice_effects_shape eff state
        (mc_decision uid cid state cf ch)
      exact ⟨h.1, h.2.1, h.2.2.1, h.2.2.2.1, h.2.2.2.2.1,
        h.2.2.2.2.2.1, h.2.2.2.2.2.2⟩

/-- The cursor and counters of `make_choice_next_state`. -/
theorem make_choice_next_state_fields (cat : Catalog) (nf : FragmentSchema)
    (now : Nat) (s : UserNarrativeState) :
    (make_choice_next_state cat nf now s).current_fragment_id = some nf.id ∧
    (make_choice_next_state cat nf now s).total_decisions_made =
      s.total_decisions_made + 1 ∧
    (make_choice_next_state cat nf now s).fragments_visited =
      (if memb nf.id s.fragments_visited then s.fragments_visited
        else s.fragments_visited ++ [nf.id]) := by
  unfold make_choice_next_state
  exact ⟨rfl, rfl, rfl⟩

/-- The cursor and counters of `navigate_next_state`. -/
theorem navigate_next_state_fields (cat : Catalog) (nf : FragmentSchema)
    (now : Nat) (s : UserNarrativeState) :
    (navigate_next_state cat nf now s).current_fragment_id = some nf.id ∧
    (navigate_next_state cat nf now s).total_decisions_made =
      s.total_decisions_made ∧
    (navigate_next_state cat nf now s).fragments_visited =
      (if memb nf.id s.fragments_visited then s.fragments_visited
        else s.fragments_visited ++ [nf.id]) := by
  unfold navigate_next_state
  exact ⟨rfl, rfl, rfl⟩

/-! ## C1 -/

/-- C1: whenever `make_choice` returns a failure (no active story,
unresolvable current fragment, invalid choice, requirements unmet, or
unresolvable next fragment), the persisted state is unchanged — in
particular `current_fragment_id`, `fragments_visited` and
`total_decisions_made` keep their values — no `UserDecision` row is
created, and nothing is committed or sent to any collaborator. -/
theorem make_choice_failure_no_mutation (cat : Catalog) (uid : Nat)
    (cid : String) (now : Nat) (db : DB) (m : String)
    (f : Option FragmentSchema)
    (h : (make_choice cat uid cid now db).result = some (false, m, f)) :
    (make_choice cat uid cid now db).db = db ∧
    (make_choice cat uid cid now db).events = [] ∧
    (make_choice cat uid cid now db).db.decisions = db.decisions := by
  rcases make_choice_shape cat uid cid now db with ⟨m2, he⟩ |
    ⟨st, cf, ch, nf, _, _, _, _, _, he⟩
  · rw [he]; exact ⟨rfl, rfl, rfl⟩
  · rw [he, make_choice_go_result] at h
    simp at h

/-- Witness for C1: an invalid choice id at fragment `f1` fails with
the `Opción no válida` message and leaves the store untouched. -/
theorem make_choice_failure_no_mutation_witness :
    (make_choice fxCat 1 "bogus" 4 fxDbF1).result =
      some (false, "Opción no válida", none) ∧
    ((make_choice fxCat 1 "bogus" 4 fxDbF1).db = fxDbF1 ∧
     (make_choice fxCat 1 "bogus" 4 fxDbF1).events = [] ∧
     (make_choice fxCat 1 "bogus" 4 fxDbF1).db.decisions = fxDbF1.decisions) :=
  ⟨by decide,
   make_choice_failure_no_mutation fxCat 1 "bogus" 4 fxDbF1
     "Opción no válida" none (by decide)⟩

/-! ## C8 -/

/-- C8: `start_story` on a VIP story with no `User` row does not
return the structured AccessDenied failure: line 71 dereferences
`user.role` on `None` and the call raises (modelled as the `none`
result), contradicting the never-an-unhandled-fault contract. -/
theorem start_story_missing_user_vip_crash :
    (get_story fxCat "vipstory").map Story.requires_vip = some true ∧
    (DB.mk none (some fxStatePrior) [] []).user = none ∧
    (start_story fxCat 1 "vipstory" 3
      (DB.mk none (some fxStatePrior) [] [])).result = none := by decide

/-! ## C3 -/

/-- Counterexample to C3 as stated: starting the VIP story without a
state row fails with the VIP denial, yet a fresh initialized state has
been created and committed by the lazy-initialization step. -/
theorem start_story_vip_denied_creates_state :
    fxDb0.state = none ∧
    (start_story fxCat 1 "vipstory" 3 fxDb0).result =
      some (false, "Esta historia requiere suscripción VIP", none) ∧
    (start_story fxCat 1 "vipstory" 3 fxDb0).db.state =
      some (fresh_state 1 3) ∧
    (start_story fxCat 1 "vipstory" 3 fxDb0).events = [Event.commit] := by
  decide

/-- C3 (amended): a failed `start_story` never commits story-specific
state — the decision log is untouched, an existing state row is left
exactly as it was — but when the user had no state row, the
VIP-denial and missing-fragment failures leave behind the freshly
initialized empty state committed by the lazy creation step. -/
theorem start_story_failure_frame (cat : Catalog) (uid : Nat) (sid : String)
    (now : Nat) (db : DB) (m : String) (f : Option FragmentSchema)
    (h : (start_story cat uid sid now db).result = some (false, m, f)) :
    (start_story cat uid sid now db).db.decisions = db.decisions ∧
    (∀ s, db.state = some s → (start_story cat uid sid now db).db = db) ∧
    (db.state = none →
      (start_story cat uid sid now db).db = db ∨
      (start_story cat uid sid now db).db =
        { db with state := some (fresh_state uid now) }) := by
  rcases start_story_shape cat uid sid now db with he |
    ⟨story, _, _, _, he⟩ | ⟨story, u, _, _, _, _, he⟩ | ⟨story, hst, he⟩
  · rw [he]; exact ⟨rfl, fun s _ => rfl, fun _ => Or.inl rfl⟩
  · rw [he] at h; simp at h
  · rw [he]
    exact ⟨lazy_db_decisions uid now db,
      fun s hs => lazy_db_of_some uid now db s hs,
      fun hs => Or.inr (lazy_db_of_none uid now db hs)⟩
  · rw [he] at h ⊢
    unfold start_story_go at h ⊢
    cases hsf : get_starting_fragment cat sid with
    | none =>
        exact ⟨lazy_db_decisions uid now db,
          fun s hs => lazy_db_of_some uid now db s hs,
          fun hs => Or.inr (lazy_db_of_none uid now db hs)⟩
    | some frag => simp [hsf] at h

/-- Witness for the amended C3: the VIP denial on a user with an
existing state row changes nothing at all. -/
theorem start_story_failure_frame_witness :
    (start_story fxCat 1 "vipstory" 3 fxDbPrior).result =
      some (false, "Esta historia requiere suscripción VIP", none) ∧
    ((start_story fxCat 1 "vipstory" 3 fxDbPrior).db.decisions =
        fxDbPrior.decisions ∧
     (∀ s, fxDbPrior.state = some s →
        (start_story fxCat 1 "vipstory" 3 fxDbPrior).db = fxDbPrior) ∧
     (fxDbPrior.state = none →
        (start_story fxCat 1 "vipstory" 3 fxDbPrior).db = fxDbPrior ∨
        (start_story fxCat 1 "vipstory" 3 fxDbPrior).db =
          { fxDbPrior with state := some (fresh_state 1 3) })) :=
  ⟨by decide,
   start_story_failure_frame fxCat 1 "vipstory" 3 fxDbPrior
     "Esta historia requiere suscripción VIP" none (by decide)⟩

/-! ## C4: counterexample -/

/-- Counterexample to C4 as stated: a successful `make_choice` whose
choice carries a 10-point effect grants those points (first trace
entry) before the commit — the points collaborator is reached before
the primary state commit. -/
theorem make_choice_points_before_commit :
    (make_choice fxCat 1 "c1" 4 fxDbF1).result =
      some (true, "Decisión registrada", some fxF2) ∧
    (make_choice fxCat 1 "c1" 4 fxDbF1).events =
      [Event.pointsGrant 10, Event.commit, Event.fragmentVisit "f2",
       Event.choiceMetric (some "f2") "c1", Event.pointsGrant 10] ∧
    aux_after_commit (make_choice fxCat 1 "c1" 4 fxDbF1).events = false := by
  decide

/-! ## Trace lemmas for the ordering and checkpoint claims -/

theorem make_choice_go_events (cat : Catalog) (uid : Nat) (cid : String)
    (now : Nat) (db : DB) (state : UserNarrativeState) (cf : FragmentSchema)
    (ch : ChoiceSchema) (nf : FragmentSchema) :
    (make_choice_go cat uid cid now db state cf ch nf).events =
      (mc_apply uid cid state cf ch).2.2 ++
      (if nf.type == "checkpoint" then [Event.checkpointSave] else []) ++
      reward_events nf ++
      [Event.commit, Event.fragmentVisit nf.id,
       Event.choiceMetric (some nf.id) cid,
       Event.pointsGrant decision_made_points] := rfl

theorem navigate_next_go_events (cat : Catalog) (now : Nat) (db : DB)
    (state : UserNarrativeState) (nf : FragmentSchema) :
    (navigate_next_go cat now db state nf).events =
      reward_events nf ++
      [Event.commit, Event.fragmentVisit nf.id,
       Event.pointsGrant fragment_read_points] := rfl

theorem mac_no_metric_prefix (l1 l2 : List Event)
    (h : ∀ e ∈ l1, is_metric e = false) :
    metrics_after_commit (l1 ++ Event.commit :: l2) = true := by
  induction l1 with
  | nil => rfl
  | cons e r ih =>
      have he := h e (List.mem_cons_self e r)
      have hr : ∀ x ∈ r, is_metric x = false :=
        fun x hx => h x (List.mem_cons_of_mem _ hx)
      cases e with
      | commit => rfl
      | checkpointSave => simpa [metrics_after_commit, is_metric] using ih hr
      | fragmentVisit fid => simp [is_metric] at he
      | choiceMetric a b => simp [is_metric] at he
      | pointsGrant p => simpa [metrics_after_commit, is_metric] using ih hr
      | achievementGrant a => simpa [metrics_after_commit, is_metric] using ih hr
      | loreUnlock c => simpa [metrics_after_commit, is_metric] using ih hr

theorem mc_apply_events_no_metric (uid : Nat) (cid : String)
    (state : UserNarrativeState) (cf : FragmentSchema) (ch : ChoiceSchema) :
    ∀ e ∈ (mc_apply uid cid state cf ch).2.2, is_metric e = false := by
  intro e he
  rcases (mc_apply_shape uid cid state cf ch).1 with h0 | ⟨p, h0⟩
  · rw [h0] at he; simp at he
  · rw [h0] at he
    simp at he
    subst he
    rfl

theorem reward_events_no_metric (f : FragmentSchema) :
    ∀ e ∈ reward_events f, is_metric e = false := by
  intro e he
  unfold reward_events at he
  split at he
  · simp at he
  · rcases process_fragment_rewards_shape _ e he with ⟨p, hp⟩ | ⟨a, ha⟩ | ⟨c, hc⟩
    · subst hp; rfl
    · subst ha; rfl
    · subst hc; rfl

theorem metrics_after_commit_lazy (db : DB) :
    metrics_after_commit (lazy_events db) = true := by
  unfold lazy_events; cases db.state <;> rfl

/-! ## C4: amended theorem -/

/-- C4 (amended): in every transition operation the fragment-visit and
choice metrics are attempted only after the primary state commit has
succeeded, never before the first commit of the operation; the points
granted by a choice's effects and by fragment rewards, however, are
forwarded to the points collaborator before the commit (see the
counterexample), as is the checkpoint save. -/
theorem metrics_only_after_commit (cat : Catalog) (uid : Nat)
    (sid cid : String) (now : Nat) (db : DB) :
    metrics_after_commit (start_story cat uid sid now db).events = true ∧
    metrics_after_commit (make_choice cat uid cid now db).events = true ∧
    metrics_after_commit (navigate_next cat uid now db).events = true ∧
    metrics_after_commit (go_back cat uid now db).events = true := by
  refine ⟨?_, ?_, ?_, ?_⟩
  · rcases start_story_shape cat uid sid now db with he |
      ⟨_, _, _, _, he⟩ | ⟨_, _, _, _, _, _, he⟩ | ⟨story, hst, he⟩
    · rw [he]; rfl
    · rw [he]; exact metrics_after_commit_lazy db
    · rw [he]; exact metrics_after_commit_lazy db
    · rw [he]
      unfold start_story_go
      cases hsf : get_starting_fragment cat sid with
      | none => exact metrics_after_commit_lazy db
      | some frag =>
          show metrics_after_commit (lazy_events db ++
            [Event.commit, Event.fragmentVisit frag.id,
             Event.pointsGrant fragment_read_points]) = true
          unfold lazy_events
          cases db.state <;> rfl
  · rcases make_choice_shape cat uid cid now db with ⟨m2, he⟩ |
      ⟨st, cf, ch, nf, _, _, _, _, _, he⟩
    · rw [he]; rfl
    · rw [he, make_choice_go_events]
      apply mac_no_metric_prefix
      intro e he2
      rcases List.mem_append.mp he2 with h1 | h1
      · rcases List.mem_append.mp h1 with h2 | h2
        · exact mc_apply_events_no_metric uid cid st cf ch e h2
        · split at h2
          · simp at h2; subst h2; rfl
          · simp at h2
      · exact reward_events_no_metric nf e h1
  · rcases navigate_next_shape cat uid now db with ⟨m2, he⟩ |
      ⟨st, cf, nfid, nf, _, _, _, _, _, he⟩
    · rw [he]; rfl
    · rw [he, navigate_next_go_events]
      show metrics_after_commit (reward_events nf ++
        (Event.commit :: [Event.fragmentVisit nf.id,
         Event.pointsGrant fragment_read_points])) = true
      exact mac_no_metric_prefix _ _ (reward_events_no_metric nf)
  · rcases go_back_shape cat uid now db with ⟨m2, he⟩ | he |
      ⟨st, cur, idx, prev, _, _, _, _, _, _, he⟩
    · rw [he]; rfl
    · rw [he]; rfl
    · rw [he]; rfl

/-! ## C5 -/

theorem count_ck_mc_apply (uid : Nat) (cid : String)
    (state : UserNarrativeState) (cf : FragmentSchema) (ch : ChoiceSchema) :
    count_ck (mc_apply uid cid state cf ch).2.2 = 0 := by
  rcases (mc_apply_shape uid cid state cf ch).1 with h0 | ⟨p, h0⟩ <;>
    rw [h0] <;> rfl

theorem count_ck_zero_of_no_ck (l : List Event)
    (h : ∀ e ∈ l, e ≠ Event.checkpointSave) : count_ck l = 0 := by
  induction l with
  | nil => rfl
  | cons e r ih =>
      have he := h e (List.mem_cons_self e r)
      have hr : ∀ x ∈ r, x ≠ Event.checkpointSave :=
        fun x hx => h x (List.mem_cons_of_mem _ hx)
      cases e with
      | checkpointSave => exact absurd rfl he
      | commit => simpa [count_ck] using ih hr
      | fragmentVisit fid => simpa [count_ck] using ih hr
      | choiceMetric a b => simpa [count_ck] using ih hr
      | pointsGrant p => simpa [count_ck] using ih hr
      | achievementGrant a => simpa [count_ck] using ih hr
      | loreUnlock c => simpa [count_ck] using ih hr

theorem count_ck_reward_events (f : FragmentSchema) :
    count_ck (reward_events f) = 0 := by
  apply count_ck_zero_of_no_ck
  intro e he
  unfold reward_events at he
  split at he
  · simp at he
  · rcases process_fragment_rewards_shape _ e he with ⟨p, hp⟩ | ⟨a, ha⟩ | ⟨c, hc⟩
    · subst hp; simp
    · subst ha; simp
    · subst hc; simp

/-- Counterexample to C5 as stated: a successful `navigate_next` into
checkpoint fragment `n3` never invokes the checkpoint collaborator —
`navigate_next` (lines 206–262) has no checkpoint handling at all. -/
theorem navigate_next_checkpoint_no_save :
    (navigate_next fxCat 1 5 fxDbN1).result =
      some (true, "Continuando historia", some fxN3) ∧
    fxN3.type = "checkpoint" ∧
    count_ck (navigate_next fxCat 1 5 fxDbN1).events = 0 ∧
    Event.checkpointSave ∉ (navigate_next fxCat 1 5 fxDbN1).events := by
  decide

/-- C5 (amended): a successful `make_choice` into a checkpoint-kind
fragment invokes the checkpoint collaborator's save exactly once (and
never for other kinds), in addition to the per-transition commit;
`navigate_next`, however, never invokes the checkpoint save, even when
its target fragment is a checkpoint. -/
theorem checkpoint_save_placement (cat : Catalog) (uid : Nat) (cid : String)
    (now : Nat) (db : DB) :
    (∀ m nf, (make_choice cat uid cid now db).result = some (true, m, some nf) →
      count_ck (make_choice cat uid cid now db).events =
        (if nf.type == "checkpoint" then 1 else 0)) ∧
    count_ck (navigate_next cat uid now db).events = 0 := by
  constructor
  · intro m nf h
    rcases make_choice_shape cat uid cid now db with ⟨m2, he⟩ |
      ⟨st, cf, ch, nf2, _, _, _, _, _, he⟩
    · rw [he] at h; simp [failStep] at h
    · rw [he, make_choice_go_result] at h
      simp at h
      obtain ⟨hm, hnf⟩ := h
      rw [← hnf]
      rw [he, make_choice_go_events]
      rw [count_ck_append, count_ck_append, count_ck_append]
      rw [count_ck_mc_apply, count_ck_reward_events]
      have htail : count_ck [Event.commit, Event.fragmentVisit nf2.id,
          Event.choiceMetric (some nf2.id) cid,
          Event.pointsGrant decision_made_points] = 0 := rfl
      rw [htail]
      cases hck : nf2.type == "checkpoint" <;> simp [count_ck]
  · rcases navigate_next_shape cat uid now db with ⟨m2, he⟩ |
      ⟨st, cf, nfid, nf, _, _, _, _, _, he⟩
    · rw [he]; rfl
    · rw [he, navigate_next_go_events, count_ck_append,
        count_ck_reward_events]
      rfl

/-- Witness for the amended C5: the choice transition into checkpoint
`k3` saves exactly once. -/
theorem checkpoint_save_placement_witness :
    (make_choice fxCat 1 "c1" 4 fxDbK1).result =
      some (true, "Decisión registrada", some fxK3) ∧
    count_ck (make_choice fxCat 1 "c1" 4 fxDbK1).events =
      (if fxK3.type == "checkpoint" then 1 else 0) :=
  ⟨by decide,
   (checkpoint_save_placement fxCat 1 "c1" 4 fxDbK1).1
     "Decisión registrada" fxK3 (by decide)⟩

/-! ## C7 -/

/-- C7: `navigate_next` never creates a `UserDecision` row and never
changes `total_decisions_made`, whatever its outcome; every structured
failure leaves the store and trace untouched; and when the target
fragment's requirements are unmet, the failure carries the rendered
missing-requirement list with the state entirely unchanged. -/
theorem navigate_next_spec (cat : Catalog) (uid : Nat) (now : Nat) (db : DB) :
    (navigate_next cat uid now db).db.decisions = db.decisions ∧
    (∀ s s2, db.state = some s →
      (navigate_next cat uid now db).db.state = some s2 →
      s2.total_decisions_made = s.total_decisions_made) ∧
    (∀ m f, (navigate_next cat uid now db).result = some (false, m, f) →
      (navigate_next cat uid now db).db = db ∧
      (navigate_next cat uid now db).events = []) ∧
    (∀ state current nfid next missing, db.state = some state →
      get_fragment cat state.active_story state.current_fragment_id =
        some current →
      current.next_fragment = some nfid →
      get_fragment cat state.active_story (some nfid) = some next →
      check_requirements (req_or_empty next.requirements)
        (user_data_for_requirements db) = (false, missing) →
      navigate_next cat uid now db = failStep (req_fail_msg missing) db) := by
  refine ⟨?_, ?_, ?_, ?_⟩
  · rcases navigate_next_shape cat uid now db with ⟨m2, he⟩ |
      ⟨st, cf, nfid, nf, _, _, _, _, _, he⟩
    · rw [he]; rfl
    · rw [he]; rfl
  · intro s s2 hs hs2
    rcases navigate_next_shape cat uid now db with ⟨m2, he⟩ |
      ⟨st, cf, nfid, nf, hs3, _, _, _, _, he⟩
    · rw [he] at hs2
      rw [show (failStep m2 db).db = db from rfl] at hs2
      rw [hs] at hs2
      injection hs2 with h2
      rw [← h2]
    · rw [he] at hs2
      rw [hs] at hs3
      injection hs3 with h3
      have : (navigate_next_go cat now db st nf).db.state =
          some (navigate_next_state cat nf now st) := rfl
      rw [this] at hs2
      injection hs2 with h2
      rw [← h2, (navigate_next_state_fields cat nf now st).2.1, ← h3]
  · intro m f h
    rcases navigate_next_shape cat uid now db with ⟨m2, he⟩ |
      ⟨st, cf, nfid, nf, _, _, _, _, _, he⟩
    · rw [he]; exact ⟨rfl, rfl⟩
    · rw [he, navigate_next_go_result] at h
      simp at h
  · intro state current nfid next missing hs hcf hnx hnf hchk
    unfold navigate_next
    simp only [hs, hcf, hnx, hnf, hchk]
    rfl

/-- Witness for C7: the gated auto-advance from `r1` to the level-5
fragment `r2` fails with the level reason and changes nothing. -/
theorem navigate_next_spec_witness :
    fxDbR1.state = some fxStateR1 ∧
    get_fragment fxCat fxStateR1.active_story
      fxStateR1.current_fragment_id = some fxR1 ∧
    fxR1.next_fragment = some "r2" ∧
    get_fragment fxCat fxStateR1.active_story (some "r2") = some fxR2 ∧
    check_requirements (req_or_empty fxR2.requirements)
      (user_data_for_requirements fxDbR1) = (false, ["Nivel minimo 5"]) ∧
    navigate_next fxCat 1 5 fxDbR1 =
      failStep (req_fail_msg ["Nivel minimo 5"]) fxDbR1 :=
  ⟨by decide, by decide, by decide, by decide, by decide,
   (navigate_next_spec fxCat 1 5 fxDbR1).2.2.2 fxStateR1 fxR1 "r2" fxR2
     ["Nivel minimo 5"] (by decide) (by decide) (by decide) (by decide)
     (by decide)⟩

/-! ## Success inversion lemmas -/

/-- A successful `start_story` leaves exactly the started state: the
cursor on the returned fragment, the visited list reset to it, on top
of the pre-existing (or lazily created) state row. -/
theorem start_story_success_inv (cat : Catalog) (uid : Nat) (sid : String)
    (now : Nat) (db : DB) (m : String) (s0 : FragmentSchema)
    (h : (start_story cat uid sid now db).result = some (true, m, some s0)) :
    (start_story cat uid sid now db).db.state =
      some (started_state sid s0 (lazy_state uid now db)) ∧
    (start_story cat uid sid now db).db.decisions = db.decisions := by
  rcases start_story_shape cat uid sid now db with he |
    ⟨_, _, _, _, he⟩ | ⟨_, _, _, _, _, _, he⟩ | ⟨story, hst, he⟩
  · rw [he] at h; simp [failStep] at h
  · rw [he] at h; simp at h
  · rw [he] at h; simp at h
  · rw [he] at h ⊢
    unfold start_story_go at h ⊢
    cases hsf : get_starting_fragment cat sid with
    | none => simp [hsf] at h
    | some frag =>
        simp only [hsf] at h
        simp at h
        obtain ⟨hm, hfrag⟩ := h
        rw [← hfrag]
        exact ⟨rfl, lazy_db_decisions uid now db⟩

/-- A successful `make_choice` advanced from some gate-passing state:
the new state row is `make_choice_next_state` over the
effect-processed state, and exactly the one decision row was added. -/
theorem make_choice_success_inv (cat : Catalog) (uid : Nat) (cid : String)
    (now : Nat) (db : DB) (m : String) (nf : FragmentSchema)
    (h : (make_choice cat uid cid now db).result = some (true, m, some nf)) :
    ∃ state current choice, db.state = some state ∧
      (make_choice cat uid cid now db).db.state =
        some (make_choice_next_state cat nf now
          (mc_apply uid cid state current choice).1) ∧
      (make_choice cat uid cid now db).db.decisions =
        db.decisions ++ [(mc_apply uid cid state current choice).2.1] := by
  rcases make_choice_shape cat uid cid now db with ⟨m2, he⟩ |
    ⟨st, cf, ch, nf2, hs, hcf, hvc, hchk, hnf2, he⟩
  · rw [he] at h; simp [failStep] at h
  · rw [he, make_choice_go_result] at h
    simp at h
    obtain ⟨hm, hnf⟩ := h
    refine ⟨st, cf, ch, hs, ?_, ?_⟩
    · rw [he, ← hnf]; rfl
    · rw [he]; rfl

/-! ## C2 -/

/-- Counterexample to C2 as stated: a returning user with seven prior
decisions restarts the free story (whose start `f1` is a decision
fragment) and makes one successful choice to the distinct fragment
`f2`; `total_decisions_made` ends at 8, not 1, because `start_story`
never resets the counter. -/
theorem restart_does_not_reset_counter :
    fxStatePrior.total_decisions_made = 7 ∧
    (start_story fxCat 1 "free" 3 fxDbPrior).result =
      some (true, "Historia \x27Free\x27 iniciada", some fxF1) ∧
    fxF1.type = "decision" ∧
    (make_choice fxCat 1 "c1" 4
      (start_story fxCat 1 "free" 3 fxDbPrior).db).result =
      some (true, "Decisión registrada", some fxF2) ∧
    fxF2.id ≠ fxF1.id ∧
    db_total (make_choice fxCat 1 "c1" 4
      (start_story fxCat 1 "free" 3 fxDbPrior).db).db = some 8 ∧
    db_total (make_choice fxCat 1 "c1" 4
      (start_story fxCat 1 "free" 3 fxDbPrior).db).db ≠ some 1 := by
  decide

/-- C2 (amended): after a successful `start_story` followed by one
successful `make_choice` whose fragment is distinct from the starting
one, `total_decisions_made` equals its pre-`start_story` value plus
one (so 1 exactly when the user starts fresh), `fragments_visited` is
the two-element history starting fragment then next fragment, and the
one appended `UserDecision` row carries the fragment the choice was
made from and the chosen choice id. -/
theorem make_choice_after_start_increments (cat : Catalog) (uid : Nat)
    (sid cid : String) (now now2 : Nat) (db : DB) (m m2 : String)
    (s0 nf : FragmentSchema)
    (h1 : (start_story cat uid sid now db).result = some (true, m, some s0))
    (h2 : (make_choice cat uid cid now2
      (start_story cat uid sid now db).db).result = some (true, m2, some nf))
    (hne : nf.id ≠ s0.id) :
    ∃ st2 d,
      (make_choice cat uid cid now2
        (start_story cat uid sid now db).db).db.state = some st2 ∧
      st2.total_decisions_made = pre_total db + 1 ∧
      st2.fragments_visited = [s0.id, nf.id] ∧
      (make_choice cat uid cid now2
        (start_story cat uid sid now db).db).db.decisions =
        db.decisions ++ [d] ∧
      d.fragment_id = some s0.id ∧
      d.choice_id = cid := by
  obtain ⟨hstate1, hdec1⟩ := start_story_success_inv cat uid sid now db m s0 h1
  obtain ⟨st, cf, ch, hs, hstate2, hdec2⟩ :=
    make_choice_success_inv cat uid cid now2
      (start_story cat uid sid now db).db m2 nf h2
  rw [hstate1] at hs
  injection hs with hs'
  subst hs'
  have hA := mc_apply_shape uid cid
    (started_state sid s0 (lazy_state uid now db)) cf ch
  have hF := make_choice_next_state_fields cat nf now2
    (mc_apply uid cid (started_state sid s0 (lazy_state uid now db)) cf ch).1
  have hvisA : (mc_apply uid cid
      (started_state sid s0 (lazy_state uid now db)) cf ch).1.fragments_visited
      = [s0.id] := hA.2.2.1
  have htotA : (mc_apply uid cid
      (started_state sid s0 (lazy_state uid now db)) cf ch).1.total_decisions_made
      = (lazy_state uid now db).total_decisions_made := hA.2.2.2.1
  have hcurA : (mc_apply uid cid
      (started_state sid s0 (lazy_state uid now db)) cf ch).2.1.fragment_id
      = some s0.id := hA.2.2.2.2.2.1
  have hmemb : memb nf.id [s0.id] = false := by
    simp [memb]
    exact hne
  refine ⟨_, _, hstate2, ?_, ?_, ?_, hcurA, hA.2.2.2.2.2.2⟩
  · rw [hF.2.1, htotA, lazy_state_total]
  · rw [hF.2.2, hvisA, hmemb]
    simp
  · rw [hdec2, hdec1]

/-- Witness for the amended C2: a fresh user plays the free story and
ends with one decision, history `[f1, f2]`, and the matching decision
row. -/
theorem make_choice_after_start_increments_witness :
    (start_story fxCat 1 "free" 3 fxDb0).result =
      some (true, "Historia \x27Free\x27 iniciada", some fxF1) ∧
    (make_choice fxCat 1 "c1" 4
      (start_story fxCat 1 "free" 3 fxDb0).db).result =
      some (true, "Decisión registrada", some fxF2) ∧
    fxF2.id ≠ fxF1.id ∧
    (∃ st2 d,
      (make_choice fxCat 1 "c1" 4
        (start_story fxCat 1 "free" 3 fxDb0).db).db.state = some st2 ∧
      st2.total_decisions_made = pre_total fxDb0 + 1 ∧
      st2.fragments_visited = [fxF1.id, fxF2.id] ∧
      (make_choice fxCat 1 "c1" 4
        (start_story fxCat 1 "free" 3 fxDb0).db).db.decisions =
        fxDb0.decisions ++ [d] ∧
      d.fragment_id = some fxF1.id ∧
      d.choice_id = "c1") :=
  ⟨by decide, by decide, by decide,
   make_choice_after_start_increments fxCat 1 "free" "c1" 3 4 fxDb0
     "Historia \x27Free\x27 iniciada" "Decisión registrada" fxF1 fxF2
     (by decide) (by decide) (by decide)⟩

/-! ## C6 -/

/-- C6: `go_back` fails with the CannotGoBack messages when there is
no state, when the visited history has length ≤ 1, or when the current
fragment sits at position 0 of the visited list; immediately after a
successful `start_story` it therefore always fails (history length 1);
and on success it only moves the cursor to the entry immediately
preceding the current fragment's position, removing nothing from the
visited list. -/
theorem go_back_spec (cat : Catalog) (uid : Nat) (now : Nat) (db : DB) :
    (db.state = none →
      go_back cat uid now db = failStep "No puedes retroceder más" db) ∧
    (∀ state, db.state = some state → state.fragments_visited.length ≤ 1 →
      go_back cat uid now db = failStep "No puedes retroceder más" db) ∧
    (∀ state cur, db.state = some state →
      ¬ state.fragments_visited.length ≤ 1 →
      state.current_fragment_id = some cur →
      find_index cur state.fragments_visited = some 0 →
      go_back cat uid now db = failStep "Ya estás en el inicio" db) ∧
    (∀ m f st2, (go_back cat uid now db).result = some (true, m, f) →
      (go_back cat uid now db).db.state = some st2 →
      ∃ state cur idx, db.state = some state ∧
        state.current_fragment_id = some cur ∧
        find_index cur state.fragments_visited = some idx ∧ 1 ≤ idx ∧
        st2.current_fragment_id =
          some (state.fragments_visited.getD (idx - 1) "") ∧
        st2.fragments_visited = state.fragments_visited) ∧
    (∀ sid m f, (start_story cat uid sid now db).result =
        some (true, m, some f) →
      go_back cat uid now (start_story cat uid sid now db).db =
        failStep "No puedes retroceder más"
          (start_story cat uid sid now db).db) := by
  refine ⟨?_, ?_, ?_, ?_, ?_⟩
  · intro h
    unfold go_back
    simp only [h]
  · intro state hs hlen
    unfold go_back
    simp only [hs]
    rw [if_pos hlen]
  · intro state cur hs hlen hcur hfi
    unfold go_back
    simp only [hs, hcur, hfi, if_neg hlen]
    rfl
  · intro m f st2 h hst2
    rcases go_back_shape cat uid now db with ⟨m2, he⟩ | he |
      ⟨state, cur, idx, prev, hs, hlen, hcur, hfi, hidx0, hprev, he⟩
    · rw [he] at h; simp [failStep] at h
    · rw [he] at h; simp at h
    · rw [he] at hst2
      injection hst2 with hst2'
      subst hst2'
      exact ⟨state, cur, idx, hs, hcur, hfi,
        Nat.one_le_iff_ne_zero.mpr hidx0, rfl, rfl⟩
  · intro sid m f h
    obtain ⟨hst1, _⟩ := start_story_success_inv cat uid sid now db m f h
    have hlen1 : (started_state sid f
        (lazy_state uid now db)).fragments_visited.length ≤ 1 := by
      simp [started_state]
    unfold go_back
    simp only [hst1]
    rw [if_pos hlen1]

/-! ## C9 / C10: invariants -/

theorem state_inv_fresh (uid now : Nat) : state_inv (fresh_state uid now) :=
  rfl

theorem state_inv_started (sid : String) (frag : FragmentSchema)
    (s : UserNarrativeState) : state_inv (started_state sid frag s) := by
  show frag.id ∈ [frag.id]
  simp

theorem state_inv_mcns (cat : Catalog) (nf : FragmentSchema) (now : Nat)
    (s : UserNarrativeState) :
    state_inv (make_choice_next_state cat nf now s) := by
  show nf.id ∈ (make_choice_next_state cat nf now s).fragments_visited
  rw [(make_choice_next_state_fields cat nf now s).2.2]
  cases hm : memb nf.id s.fragments_visited
  · simp [hm]
  · simp [hm]
    exact (memb_iff_mem nf.id s.fragments_visited).mp hm

theorem state_inv_nns (cat : Catalog) (nf : FragmentSchema) (now : Nat)
    (s : UserNarrativeState) :
    state_inv (navigate_next_state cat nf now s) := by
  show nf.id ∈ (navigate_next_state cat nf now s).fragments_visited
  rw [(navigate_next_state_fields cat nf now s).2.2]
  cases hm : memb nf.id s.fragments_visited
  · simp [hm]
  · simp [hm]
    exact (memb_iff_mem nf.id s.fragments_visited).mp hm

theorem db_inv_lazy (uid now : Nat) (db : DB) (h : db_inv db) :
    db_inv (lazy_db uid now db) := by
  cases hdb : db.state with
  | some s => rw [lazy_db_of_some uid now db s hdb]; exact h
  | none =>
      rw [lazy_db_of_none uid now db hdb]
      intro s hs
      injection hs with hs'
      subst hs'
      exact state_inv_fresh uid now

theorem db_nodup_lazy (uid now : Nat) (db : DB) (h : db_nodup db) :
    db_nodup (lazy_db uid now db) := by
  cases hdb : db.state with
  | some s => rw [lazy_db_of_some uid now db s hdb]; exact h
  | none =>
      rw [lazy_db_of_none uid now db hdb]
      intro s hs
      injection hs with hs'
      subst hs'
      exact List.nodup_nil

/-- C9: every operation preserves the invariant that a non-null
`current_fragment_id` is an element of `fragments_visited` (with a
null cursor only on an empty history); consequently the positional
lookup inside `go_back` always finds an occurrence and the operation
never faults on an invariant-satisfying store. -/
theorem narrative_invariant_preserved (cat : Catalog) (uid : Nat)
    (sid cid : String) (now : Nat) (db : DB) (hdb : db_inv db) :
    db_inv (init_user_narrative uid now db).2.1 ∧
    db_inv (start_story cat uid sid now db).db ∧
    db_inv (make_choice cat uid cid now db).db ∧
    db_inv (navigate_next cat uid now db).db ∧
    db_inv (go_back cat uid now db).db ∧
    (go_back cat uid now db).result ≠ none := by
  refine ⟨?_, ?_, ?_, ?_, ?_, ?_⟩
  · intro s hs
    have he : (init_user_narrative uid now db).2.1.state =
        some (fresh_state uid now) := rfl
    rw [he] at hs
    injection hs with hs'
    subst hs'
    exact state_inv_fresh uid now
  · rcases start_story_shape cat uid sid now db with he |
      ⟨_, _, _, _, he⟩ | ⟨_, _, _, _, _, _, he⟩ | ⟨story, hst, he⟩
    · rw [he]; exact hdb
    · rw [he]; exact db_inv_lazy uid now db hdb
    · rw [he]; exact db_inv_lazy uid now db hdb
    · rw [he]
      unfold start_story_go
      cases hsf : get_starting_fragment cat sid with
      | none => exact db_inv_lazy uid now db hdb
      | some frag =>
          intro s hs
          have hs2 : some (started_state sid frag (lazy_state uid now db)) =
              some s := hs
          injection hs2 with hs'
          subst hs'
          exact state_inv_started sid frag (lazy_state uid now db)
  · rcases make_choice_shape cat uid cid now db with ⟨m2, he⟩ |
      ⟨st, cf, ch, nf, _, _, _, _, _, he⟩
    · rw [he]; exact hdb
    · rw [he]
      intro s hs
      have he2 : (make_choice_go cat uid cid now db st cf ch nf).db.state =
          some (make_choice_next_state cat nf now
            (mc_apply uid cid st cf ch).1) := rfl
      rw [he2] at hs
      injection hs with hs'
      subst hs'
      exact state_inv_mcns cat nf now (mc_apply uid cid st cf ch).1
  · rcases navigate_next_shape cat uid now db with ⟨m2, he⟩ |
      ⟨st, cf, nfid, nf, _, _, _, _, _, he⟩
    · rw [he]; exact hdb
    · rw [he]
      intro s hs
      have he2 : (navigate_next_go cat now db st nf).db.state =
          some (navigate_next_state cat nf now st) := rfl
      rw [he2] at hs
      injection hs with hs'
      subst hs'
      exact state_inv_nns cat nf now st
  · rcases go_back_shape cat uid now db with ⟨m2, he⟩ | he |
      ⟨state, cur, idx, prev, hs0, hlen, hcur, hfi, hidx0, hprev, he⟩
    · rw [he]; exact hdb
    · rw [he]; exact hdb
    · rw [he]
      intro s hs
      injection hs with hs'
      subst hs'
      show state.fragments_visited.getD (idx - 1) "" ∈ state.fragments_visited
      apply getD_mem_of_lt
      exact Nat.lt_of_le_of_lt (Nat.sub_le idx 1)
        (find_index_lt_length cur state.fragments_visited idx hfi)
  · unfold go_back
    split
    · intro hc; simp [failStep] at hc
    rename_i state hs
    split
    · intro hc; simp [failStep] at hc
    rename_i hlen
    split
    · rename_i hcur
      have hst := hdb state hs
      unfold state_inv at hst
      rw [hcur] at hst
      exact absurd (by rw [hst]; simp) hlen
    rename_i cur hcur
    split
    · rename_i hfi
      have hst := hdb state hs
      unfold state_inv at hst
      rw [hcur] at hst
      rcases find_index_isSome_of_mem cur state.fragments_visited hst with
        ⟨i, hi⟩
      rw [hfi] at hi
      simp at hi
    rename_i idx hfi
    split
    · intro hc; simp [failStep] at hc
    split
    · intro hc; simp [failStep] at hc
    · intro hc; simp at hc

/-- Witness for C9: the back-navigable store satisfies the invariant
and its `go_back` cannot fault. -/
theorem narrative_invariant_preserved_witness :
    db_inv fxDbBack ∧ (go_back fxCat 1 6 fxDbBack).result ≠ none := by
  have h : db_inv fxDbBack := by
    intro s hs
    have hs2 : some fxStateBack = some s := hs
    injection hs2 with hs'
    subst hs'
    show ("f2" : String) ∈ ["f1", "f2"]
    simp
  exact ⟨h,
    (narrative_invariant_preserved fxCat 1 "free" "c1" 6 fxDbBack h).2.2.2.2.2⟩

/-- C10: every operation preserves the absence of duplicates in
`fragments_visited` — `start_story` resets it to a singleton,
`make_choice` and `navigate_next` append only an absent id, and
`go_back` never modifies the list at all (last conjunct). -/
theorem visited_nodup_preserved (cat : Catalog) (uid : Nat)
    (sid cid : String) (now : Nat) (db : DB) (hdb : db_nodup db) :
    db_nodup (init_user_narrative uid now db).2.1 ∧
    db_nodup (start_story cat uid sid now db).db ∧
    db_nodup (make_choice cat uid cid now db).db ∧
    db_nodup (navigate_next cat uid now db).db ∧
    db_nodup (go_back cat uid now db).db ∧
    (∀ s st2, db.state = some s →
      (go_back cat uid now db).db.state = some st2 →
      st2.fragments_visited = s.fragments_visited) := by
  refine ⟨?_, ?_, ?_, ?_, ?_, ?_⟩
  · intro s hs
    have hs2 : some (fresh_state uid now) = some s := hs
    injection hs2 with hs'
    subst hs'
    exact List.nodup_nil
  · rcases start_story_shape cat uid sid now db with he |
      ⟨_, _, _, _, he⟩ | ⟨_, _, _, _, _, _, he⟩ | ⟨story, hst, he⟩
    · rw [he]; exact hdb
    · rw [he]; exact db_nodup_lazy uid now db hdb
    · rw [he]; exact db_nodup_lazy uid now db hdb
    · rw [he]
      unfold start_story_go
      cases hsf : get_starting_fragment cat sid with
      | none => exact db_nodup_lazy uid now db hdb
      | some frag =>
          intro s hs
          have hs2 : some (started_state sid frag (lazy_state uid now db)) =
              some s := hs
          injection hs2 with hs'
          subst hs'
          show ([frag.id] : List String).Nodup
          simp
  · rcases make_choice_shape cat uid cid now db with ⟨m2, he⟩ |
      ⟨st, cf, ch, nf, hs0, _, _, _, _, he⟩
    · rw [he]; exact hdb
    · rw [he]
      intro s hs
      have hs2 : some (make_choice_next_state cat nf now
          (mc_apply uid cid st cf ch).1) = some s := hs
      injection hs2 with hs'
      subst hs'
      have hv := (make_choice_next_state_fields cat nf now
        (mc_apply uid cid st cf ch).1).2.2
      have hA := (mc_apply_shape uid cid st cf ch).2.2.1
      have hnd : st.fragments_visited.Nodup := hdb st hs0
      show (make_choice_next_state cat nf now
        (mc_apply uid cid st cf ch).1).fragments_visited.Nodup
      rw [hv, hA]
      cases hm : memb nf.id st.fragments_visited
      · simp [hm]
        exact nodup_concat_of_not_mem st.fragments_visited nf.id hnd
          ((memb_eq_false_iff nf.id st.fragments_visited).mp hm)
      · simp [hm]
        exact hnd
  · rcases navigate_next_shape cat uid now db with ⟨m2, he⟩ |
      ⟨st, cf, nfid, nf, hs0, _, _, _, _, he⟩
    · rw [he]; exact hdb
    · rw [he]
      intro s hs
      have hs2 : some (navigate_next_state cat nf now st) = some s := hs
      injection hs2 with hs'
      subst hs'
      have hv := (navigate_next_state_fields cat nf now st).2.2
      have hnd : st.fragments_visited.Nodup := hdb st hs0
      show (navigate_next_state cat nf now st).fragments_visited.Nodup
      rw [hv]
      cases hm : memb nf.id st.fragments_visited
      · simp [hm]
        exact nodup_concat_of_not_mem st.fragments_visited nf.id hnd
          ((memb_eq_false_iff nf.id st.fragments_visited).mp hm)
      · simp [hm]
        exact hnd
  · rcases go_back_shape cat uid now db with ⟨m2, he⟩ | he |
      ⟨state, cur, idx, prev, hs0, hlen, hcur, hfi, hidx0, hprev, he⟩
    · rw [he]; exact hdb
    · rw [he]; exact hdb
    · rw [he]
      intro s hs
      injection hs with hs'
      subst hs'
      show state.fragments_visited.Nodup
      exact hdb state hs0
  · intro s st2 hs hst2
    rcases go_back_shape cat uid now db with ⟨m2, he⟩ | he |
      ⟨state, cur, idx, prev, hs0, hlen, hcur, hfi, hidx0, hprev, he⟩
    · rw [he] at hst2
      have hst3 : db.state = some st2 := hst2
      rw [hs] at hst3
      injection hst3 with hst4
      rw [← hst4]
    · rw [he] at hst2
      have hst3 : db.state = some st2 := hst2
      rw [hs] at hst3
      injection hst3 with hst4
      rw [← hst4]
    · rw [he] at hst2
      injection hst2 with hst3
      subst hst3
      rw [hs] at hs0
      injection hs0 with hs1
      rw [← hs1]

/-- Witness for C10: the two-entry history store is duplicate-free and
stays so across `make_choice` and `go_back`. -/
theorem visited_nodup_preserved_witness :
    db_nodup fxDbBack ∧
    (db_nodup (make_choice fxCat 1 "c1" 6 fxDbBack).db ∧
     db_nodup (go_back fxCat 1 6 fxDbBack).db) := by
  have h : db_nodup fxDbBack := by
    intro s hs
    have hs2 : some fxStateBack = some s := hs
    injection hs2 with hs'
    subst hs'
    show (["f1", "f2"] : List String).Nodup
    simp
  refine ⟨h, ?_, ?_⟩
  · exact (visited_nodup_preserved fxCat 1 "free" "c1" 6 fxDbBack h).2.2.1
  · exact (visited_nodup_preserved fxCat 1 "free" "c1" 6 fxDbBack h).2.2.2.2.1

/-- Witness for C6: `go_back` right after starting the free story
fails, and from the two-entry history it moves the cursor back to `f1`
while keeping the visited list intact. -/
theorem go_back_spec_witness :
    ((start_story fxCat 1 "free" 6 fxDb0).result =
      some (true, "Historia \x27Free\x27 iniciada", some fxF1) ∧
     go_back fxCat 1 6 (start_story fxCat 1 "free" 6 fxDb0).db =
       failStep "No puedes retroceder más"
         (start_story fxCat 1 "free" 6 fxDb0).db) ∧
    ((go_back fxCat 1 6 fxDbBack).result =
      some (true, "Has retrocedido", some fxF1) ∧
     (go_back fxCat 1 6 fxDbBack).db.state = some fxStateBackPrev ∧
     ∃ state cur idx, fxDbBack.state = some state ∧
       state.current_fragment_id = some cur ∧
       find_index cur state.fragments_visited = some idx ∧ 1 ≤ idx ∧
       fxStateBackPrev.current_fragment_id =
         some (state.fragments_visited.getD (idx - 1) "") ∧
       fxStateBackPrev.fragments_visited = state.fragments_visited) :=
  ⟨⟨by decide,
    (go_back_spec fxCat 1 6 fxDb0).2.2.2.2 "free"
      "Historia \x27Free\x27 iniciada" fxF1 (by decide)⟩,
   by decide, by decide,
   (go_back_spec fxCat 1 6 fxDbBack).2.2.2.1 "Has retrocedido" (some fxF1)
     fxStateBackPrev (by decide) (by decide)⟩
